import Mathlib

/-!
Verification development for the AI-Travel-Buddy itinerary planner core
(`data_manager.py`, `recommendation_engine.py`, `itinerary_generator.py`).

Embedding conventions:
* Python floats are modelled as `ℚ`; Python true division raises
  `ZeroDivisionError` on a zero divisor, modelled by `pyDiv` in `Except`.
* Exceptional termination is modelled by `Except PyError`:
  `notFound` is the `IndexError` raised by pandas `.iloc[0]` on an empty
  selection (the spec's NotFound), `divByZero` is `ZeroDivisionError`, and
  `nameError` is the `NameError` raised when a local variable is read before
  assignment.
* Randomness (`random.randint`, `random.random`, `random.choice`,
  `DataFrame.sample`) is injected as explicit sample parameters: `randint`
  clamps an arbitrary draw into the requested interval, `pyChoice` picks the
  element indexed by the draw (`none` = `IndexError` on an empty sequence).
* pandas DataFrames of records are modelled as lists of structures;
  `to_dict(orient="records")` builds fresh dicts, so catalog queries return
  values and mutation of a returned record never reaches the stored frame.
* Python `list.sort` is a stable sort; it is modelled by `List.mergeSort`
  (also stable) with the comparator induced by the Python sort key.
  `list.sort(key=k, reverse=True)` keeps equal-key elements in their original
  order, i.e. it is the stable sort for the comparator `le a b := k b ≤ k a`.
* Catalog fields that only feed the presentation layer (region, climate,
  seasons, currency, ...) are omitted; every field read by the core logic is
  kept under its source name.
-/

inductive PyError where
  | notFound
  | divByZero
  | nameError
  deriving DecidableEq, Inhabited

/-- Python true division: `a / b` raises `ZeroDivisionError` when `b == 0`. -/
def pyDiv (a b : ℚ) : Except PyError ℚ :=
  if b = 0 then Except.error PyError.divByZero else Except.ok (a / b)

/-- `random.randint(lo, hi)`: the injected draw `x` determines the sample;
the result always lies in `[lo, hi]` when `lo ≤ hi`. -/
def randint (lo hi x : Nat) : Nat := lo + x % (hi - lo + 1)

/-- `random.choice(l)` (also `DataFrame.sample(1)`): the injected draw `x`
selects the element; `none` models the `IndexError` on an empty sequence. -/
def pyChoice {α : Type} (l : List α) (x : Nat) : Option α :=
  l[x % l.length]?

/-- `.iloc[0]`-style extraction: raise the given error on an empty result.
Used wherever the Python code indexes a possibly-empty selection. -/
def require {α : Type} (o : Option α) (e : PyError) : Except PyError α :=
  match o with
  | some a => Except.ok a
  | none => Except.error e

/-- Python `str.lower()` (character-wise lowering). -/
def strLower (s : String) : String := ⟨s.data.map Char.toLower⟩

/-- Python `pat in s.lower()` for a lowercase literal `pat`. -/
def strContainsLower (s pat : String) : Bool :=
  (List.range ((strLower s).data.length + 1)).any
    (fun i => pat.data.isPrefixOf ((strLower s).data.drop i))

structure Destination where
  id : Nat
  name : String
  description : String
  deriving DecidableEq, Inhabited

structure Activity where
  destination_id : Nat
  name : String
  category : String
  description : String
  cost : ℚ
  morning_suitable : Bool
  afternoon_suitable : Bool
  evening_suitable : Bool
  popularity : ℚ
  deriving DecidableEq, Inhabited

structure Accommodation where
  destination_id : Nat
  name : String
  type : String
  cost_per_night : ℚ
  rating : ℚ
  amenities : List String
  deriving DecidableEq, Inhabited

structure Transportation where
  mode : String
  typical_cost_per_km : ℚ
  speed_km_h : ℚ
  deriving DecidableEq, Inhabited

/-- The user-preference record assembled by the presentation layer.
`start_date` / `end_date` carry the already-formatted date strings (they are
only interpolated into the overview text). `transportation` and
`accommodation` default to `"Any"` upstream (`dict.get(..., "Any")`). -/
structure UserPreferences where
  origin : String
  destination : String
  start_date : String
  end_date : String
  duration : Nat
  budget : ℚ
  activities : List String
  transportation : String
  accommodation : String
  deriving DecidableEq, Inhabited

/-- The in-memory datasets held by `DataManager` (one list per DataFrame). -/
structure DataManager where
  destinations : List Destination
  activities : List Activity
  transportations : List Transportation
  accommodations : List Accommodation
  deriving DecidableEq

/-- `destinations_df[destinations_df["name"] == name].iloc[0]`:
`none` models the `IndexError` on an empty selection. -/
def get_destination_by_name (dm : DataManager) (name : String) : Option Destination :=
  (dm.destinations.filter (fun d => decide (d.name = name))).head?

/-- `destinations_df[destinations_df["id"] == destination_id].iloc[0]`. -/
def get_destination_by_id (dm : DataManager) (destination_id : Nat) : Option Destination :=
  (dm.destinations.filter (fun d => decide (d.id = destination_id))).head?

/-- `activities_df[activities_df["destination_id"] == destination_id]` as records. -/
def get_activities_by_destination (dm : DataManager) (destination_id : Nat) : List Activity :=
  dm.activities.filter (fun a => decide (a.destination_id = destination_id))

/-- `accommodations_df[accommodations_df["destination_id"] == destination_id]` as records. -/
def get_accommodations_by_destination (dm : DataManager) (destination_id : Nat) :
    List Accommodation :=
  dm.accommodations.filter (fun a => decide (a.destination_id = destination_id))

/-- Accommodations by destination and type; `"Any"` returns the unfiltered query. -/
def get_accommodations_by_destination_and_type (dm : DataManager) (destination_id : Nat)
    (accommodation_type : String) : List Accommodation :=
  if accommodation_type = "Any" then get_accommodations_by_destination dm destination_id
  else
    dm.accommodations.filter
      (fun a => decide (a.destination_id = destination_id) && decide (a.type = accommodation_type))

/-- `get_transportation_by_mode`: mode `"Any"` samples one row
(`transportation_df.sample(1).iloc[0]`, draw injected); otherwise
`transportation_df[transportation_df["mode"] == mode].iloc[0]`
(`none` = `IndexError` when the mode is absent). -/
def get_transportation_by_mode (dm : DataManager) (mode : String) (sample_idx : Nat) :
    Option Transportation :=
  if mode = "Any" then pyChoice dm.transportations sample_idx
  else (dm.transportations.filter (fun t => decide (t.mode = mode))).head?

/-- Comparator of the Python sort
`sort(key=lambda x: (x["popularity"], -x["cost"]), reverse=True)`:
`a` may precede `b` iff `(b.popularity, -b.cost) ≤lex (a.popularity, -a.cost)`. -/
def actLe (a b : Activity) : Bool :=
  decide (b.popularity < a.popularity) ||
    (decide (b.popularity = a.popularity) && decide (a.cost ≤ b.cost))

/-- Comparator of the Python sort
`sort(key=lambda x: (x["rating"], -x["cost_per_night"]), reverse=True)`. -/
def accLe (a b : Accommodation) : Bool :=
  decide (b.rating < a.rating) ||
    (decide (b.rating = a.rating) && decide (a.cost_per_night ≤ b.cost_per_night))

/-- Comparator of the Python sort `sort(key=lambda x: x["cost_per_night"])`. -/
def cheapLe (a b : Accommodation) : Bool :=
  decide (a.cost_per_night ≤ b.cost_per_night)

/-- The optional `constraints` dictionary of `recommend_activities`;
`max_results` defaults to 10 (`constraints.get("max_results", 10)`). -/
structure Constraints where
  time_of_day : Option String := none
  max_cost : Option ℚ := none
  max_results : Option Nat := none
  deriving DecidableEq

/-- The successive narrowing steps of `recommend_activities` before ranking:
interest categories (falling back to the unfiltered set when the category
filter empties it), then the time-of-day suitability flag, then `max_cost`. -/
def filtered_activities (dm : DataManager) (p : UserPreferences) (destination_id : Nat)
    (constraints : Constraints) : List Activity :=
  let all_activities := get_activities_by_destination dm destination_id
  let preferred_categories := p.activities
  let preferred_activities :=
    if preferred_categories.isEmpty then all_activities
    else
      let by_category := all_activities.filter (fun a => preferred_categories.contains a.category)
      if by_category.isEmpty then all_activities else by_category
  let preferred_activities :=
    match constraints.time_of_day with
    | some "morning" => preferred_activities.filter (fun a : Activity => a.morning_suitable)
    | some "afternoon" => preferred_activities.filter (fun a : Activity => a.afternoon_suitable)
    | some "evening" => preferred_activities.filter (fun a : Activity => a.evening_suitable)
    | _ => preferred_activities
  match constraints.max_cost with
  | some mc => preferred_activities.filter (fun a : Activity => decide (a.cost ≤ mc))
  | none => preferred_activities

def recommend_activities (dm : DataManager) (p : UserPreferences) (destination_id : Nat)
    (constraints : Constraints) : List Activity :=
  let all_activities := get_activities_by_destination dm destination_id
  if all_activities.isEmpty then []
  else
    let sorted := (filtered_activities dm p destination_id constraints).mergeSort actLe
    sorted.take (constraints.max_results.getD 10)

/-- The accommodation record handed back by `recommend_accommodation`: the
selected catalog record (a fresh dict from `to_dict(orient="records")`) with
the derived key `total_cost` attached, or the generic fallback dict. -/
structure SelectedAccommodation where
  name : String
  type : String
  cost_per_night : ℚ
  total_cost : ℚ
  rating : ℚ
  amenities : List String
  deriving DecidableEq, Inhabited

/-- `selected["total_cost"] = total_cost` on a fresh record copy. -/
def Accommodation.withTotal (a : Accommodation) (total_cost : ℚ) : SelectedAccommodation :=
  { name := a.name, type := a.type, cost_per_night := a.cost_per_night,
    total_cost := total_cost, rating := a.rating, amenities := a.amenities }

/-- First narrowing of `recommend_accommodation`: by preferred type, widened
to all accommodations at the destination when that is empty. -/
def accommodation_candidates (dm : DataManager) (p : UserPreferences) (destination_id : Nat) :
    List Accommodation :=
  let by_type := get_accommodations_by_destination_and_type dm destination_id p.accommodation
  if by_type.isEmpty then get_accommodations_by_destination dm destination_id else by_type

def recommend_accommodation (dm : DataManager) (p : UserPreferences) (destination_id : Nat) :
    Except PyError SelectedAccommodation :=
  let accommodations := accommodation_candidates dm p destination_id
  if accommodations.isEmpty then
    Except.ok
      { name := "Local Accommodation",
        type := if p.accommodation ≠ "Any" then p.accommodation else "Hotel",
        cost_per_night := 100, total_cost := 100 * (p.duration : ℚ), rating := 4,
        amenities := ["WiFi", "Breakfast"] }
  else do
    let daily_budget ← pyDiv p.budget (p.duration : ℚ)
    let accommodation_budget := daily_budget * (35 / 100)
    let affordable_accommodations :=
      accommodations.filter (fun a => decide (a.cost_per_night ≤ accommodation_budget))
    let selected? :=
      if affordable_accommodations.isEmpty then (accommodations.mergeSort cheapLe).head?
      else (affordable_accommodations.mergeSort accLe).head?
    let selected ← require selected? PyError.notFound
    Except.ok (selected.withTotal (selected.cost_per_night * (p.duration : ℚ)))

/-- The catalog is threaded through the call: the Python method only mutates
the fresh record copies produced by `to_dict(orient="records")`, never
`accommodations_df`, so the manager state after the call is the state before. -/
def recommend_accommodation_state (dm : DataManager) (p : UserPreferences)
    (destination_id : Nat) : Except PyError SelectedAccommodation × DataManager :=
  (recommend_accommodation dm p destination_id, dm)

structure TransportationChoice where
  mode : String
  distance_km : Nat
  cost : ℚ
  travel_time_hours : ℚ
  details : String
  deriving DecidableEq, Inhabited

/-- Injected draws consumed by `recommend_transportation`. -/
structure TransRand where
  sample_idx : Nat
  fixed_distance : Nat
  long_haul : Bool
  free_distance : Nat
  mode_choice : Nat
  deriving DecidableEq, Inhabited

/-- Mode selection of the free-mode branch: >1000 km means Plane, 300-1000 km
a uniform choice among Plane/Train/Car, otherwise among Train/Bus/Car. -/
def choose_mode_by_distance (distance_km : Nat) (mode_choice : Nat) : Except PyError String :=
  if distance_km > 1000 then Except.ok "Plane"
  else if distance_km > 300 then
    require (pyChoice ["Plane", "Train", "Car"] mode_choice) PyError.notFound
  else require (pyChoice ["Train", "Bus", "Car"] mode_choice) PyError.notFound

def transport_details (p : UserPreferences) (mode : String) : String :=
  "From " ++ p.origin ++ " to " ++ p.destination ++ " via " ++ mode

def recommend_transportation (dm : DataManager) (p : UserPreferences) (r : TransRand) :
    Except PyError TransportationChoice :=
  let preferred_mode := p.transportation
  if preferred_mode ≠ "Any" then do
    let transport ← require (get_transportation_by_mode dm preferred_mode r.sample_idx)
      PyError.notFound
    let distance_km :=
      if preferred_mode = "Plane" then randint 500 5000 r.fixed_distance
      else if (["Train", "Bus", "Car"] : List String).contains preferred_mode then
        randint 50 800 r.fixed_distance
      else randint 50 2000 r.fixed_distance
    let cost := (distance_km : ℚ) * transport.typical_cost_per_km
    let travel_time_hours ← pyDiv (distance_km : ℚ) transport.speed_km_h
    Except.ok
      { mode := transport.mode, distance_km := distance_km, cost := cost,
        travel_time_hours := travel_time_hours,
        details := transport_details p transport.mode }
  else do
    let distance_km :=
      if r.long_haul then randint 1000 8000 r.free_distance
      else randint 50 800 r.free_distance
    let recommended_mode ← choose_mode_by_distance distance_km r.mode_choice
    let transport ← require (get_transportation_by_mode dm recommended_mode r.sample_idx)
      PyError.notFound
    let cost := (distance_km : ℚ) * transport.typical_cost_per_km
    let travel_time_hours ← pyDiv (distance_km : ℚ) transport.speed_km_h
    Except.ok
      { mode := transport.mode, distance_km := distance_km, cost := cost,
        travel_time_hours := travel_time_hours,
        details := transport_details p transport.mode }

structure Slot where
  description : String
  cost : ℚ
  deriving DecidableEq, Inhabited

structure DailyPlan where
  title : String
  morning : Slot
  afternoon : Slot
  evening : Slot
  total_cost : ℚ
  deriving DecidableEq, Inhabited

/-- Injected draws consumed by `recommend_daily_plan` for one day. -/
structure DayRand where
  morning_idx : Nat
  afternoon_idx : Nat
  evening_idx : Nat
  keyword_idx : Nat
  deriving DecidableEq, Inhabited

def period_constraints (time_of_day : String) (budget : ℚ) : Constraints :=
  { time_of_day := some time_of_day, max_cost := some budget, max_results := some 3 }

/-- One period of `recommend_daily_plan`: `random.choice` among the (at most
3) top candidates when the query is non-empty, the filler marker otherwise. -/
def pick_period (L : List Activity) (idx : Nat) : Except PyError (Option Activity) :=
  if L.isEmpty then Except.ok none
  else
    Except.map Option.some
      (require (pyChoice (L.take (min 3 L.length)) idx) PyError.notFound)

/-- The title policy of `recommend_daily_plan`. On a middle day the source
reads the locals `morning_activity` / `afternoon_activity` /
`evening_activity`, which were only assigned when the corresponding activity
list was non-empty; an empty period therefore raises `NameError` there. -/
def make_title (duration : Nat) (destination : Destination) (day_number : Nat)
    (morning_pick afternoon_pick evening_pick : Option Activity) (keyword_idx : Nat) :
    Except PyError String :=
  if day_number = 1 then Except.ok ("Welcome to " ++ destination.name)
  else if day_number = duration then Except.ok ("Final Day in " ++ destination.name)
  else
    match morning_pick, afternoon_pick, evening_pick with
    | some ma, some aa, some ea =>
        let keywords :=
          (if strContainsLower ma.description "cultural" ||
              strContainsLower ma.description "museum" then ["Cultural"] else []) ++
          (if strContainsLower aa.description "outdoor" ||
              strContainsLower aa.description "nature" then ["Outdoor"] else []) ++
          (if strContainsLower ea.description "food" ||
              strContainsLower ea.description "cuisine" then ["Culinary"] else [])
        if keywords.isEmpty then
          Except.ok ("Exploring " ++ destination.name ++ " - Day " ++ toString day_number)
        else
          Except.map
            (fun keyword => "Day of " ++ keyword ++ " Exploration in " ++ destination.name)
            (require (pyChoice keywords keyword_idx) PyError.notFound)
    | _, _, _ => Except.error PyError.nameError

def recommend_daily_plan (dm : DataManager) (p : UserPreferences) (destination_id : Nat)
    (day_number : Nat) (daily_budget : ℚ) (r : DayRand) : Except PyError DailyPlan := do
  let morning_budget := daily_budget * (3 / 10)
  let afternoon_budget := daily_budget * (4 / 10)
  let evening_budget := daily_budget * (3 / 10)
  let destination ← require (get_destination_by_id dm destination_id) PyError.notFound
  let morning_activities :=
    recommend_activities dm p destination_id (period_constraints "morning" morning_budget)
  let afternoon_activities :=
    recommend_activities dm p destination_id (period_constraints "afternoon" afternoon_budget)
  let evening_activities :=
    recommend_activities dm p destination_id (period_constraints "evening" evening_budget)
  let morning_pick ← pick_period morning_activities r.morning_idx
  let morning_plan :=
    match morning_pick with
    | some a => ({ description := a.description, cost := a.cost } : Slot)
    | none =>
        { description := "Explore the area near your accommodation in " ++ destination.name ++ ".",
          cost := 0 }
  let afternoon_pick ← pick_period afternoon_activities r.afternoon_idx
  let afternoon_plan :=
    match afternoon_pick with
    | some a => ({ description := a.description, cost := a.cost } : Slot)
    | none =>
        { description := "Enjoy local sights and culture in " ++ destination.name ++ ".",
          cost := morning_budget / 2 }
  let evening_pick ← pick_period evening_activities r.evening_idx
  let evening_plan :=
    match evening_pick with
    | some a => ({ description := a.description, cost := a.cost } : Slot)
    | none =>
        { description :=
            "Dine at a local restaurant and experience " ++ destination.name ++ "\x27s nightlife.",
          cost := evening_budget / 2 }
  let total_cost := morning_plan.cost + afternoon_plan.cost + evening_plan.cost
  let title ←
    make_title p.duration destination day_number morning_pick afternoon_pick evening_pick
      r.keyword_idx
  Except.ok
    { title := title, morning := morning_plan, afternoon := afternoon_plan,
      evening := evening_plan, total_cost := total_cost }

/-- Injected draws consumed by one `generate_itinerary` call. -/
structure GenRand where
  trans : TransRand
  day : Nat → DayRand
  intro_idx : Nat
  highlight_rot : Nat

/-- `_generate_overview_text`. `random.sample(activities, k)` (an order-drawn
subset without replacement) is modelled as a rotation of the description list
followed by `take k`; the draw only influences this informational string. -/
def generate_overview_text (p : UserPreferences) (destination : Destination)
    (transportation : TransportationChoice) (accommodation : SelectedAccommodation)
    (daily_plans : List DailyPlan) (intro_idx : Nat) (highlight_rot : Nat) : String :=
  let total_days := toString p.duration
  let intros : List String :=
    ["Get ready for an amazing " ++ total_days ++ "-day adventure in " ++ destination.name ++ "!",
     "Your " ++ total_days ++ "-day journey to beautiful " ++ destination.name ++ " awaits!",
     "Prepare for an unforgettable " ++ total_days ++ "-day experience in " ++
       destination.name ++ "!"]
  let intro := (pyChoice intros intro_idx).getD ""
  let transport_desc :=
    "You\x27ll travel from " ++ p.origin ++ " to " ++ destination.name ++ " by " ++
      strLower transportation.mode ++ "."
  let accommodation_desc :=
    "During your stay, you\x27ll be enjoying the comfort of a " ++ strLower accommodation.type ++
      " accommodation at " ++ accommodation.name ++ "."
  let activities :=
    daily_plans.flatMap
      (fun pl => [pl.morning.description, pl.afternoon.description, pl.evening.description])
  let activities_desc :=
    if activities.isEmpty then
      "You\x27ll have plenty of time to explore the best of " ++ destination.name ++ "."
    else
      let sample_size := min 3 activities.length
      let highlighted := (activities.rotate (highlight_rot % activities.length)).take sample_size
      "Some highlights of your trip include: " ++ String.intercalate "; " highlighted
  let destination_notes := destination.name ++ " is known for " ++ destination.description
  intro ++ "\n\n" ++
    "From " ++ p.start_date ++ " to " ++ p.end_date ++ ", you\x27ll be exploring " ++
    destination.name ++ ". " ++ transport_desc ++ " " ++ accommodation_desc ++ "\n\n" ++
    activities_desc ++ "\n\n" ++ destination_notes

structure BudgetBreakdown where
  transportation : ℚ
  accommodation : ℚ
  activities : ℚ
  food : ℚ
  miscellaneous : ℚ
  deriving DecidableEq, Inhabited

structure Itinerary where
  destination : Destination
  transportation : TransportationChoice
  accommodation : SelectedAccommodation
  daily_plan : List DailyPlan
  overview : String
  budget_breakdown : BudgetBreakdown
  deriving DecidableEq, Inhabited

def generate_itinerary (dm : DataManager) (p : UserPreferences) (r : GenRand) :
    Except PyError Itinerary := do
  let destination ← require (get_destination_by_name dm p.destination) PyError.notFound
  let destination_id := destination.id
  let transportation ← recommend_transportation dm p r.trans
  let accommodation ← recommend_accommodation dm p destination_id
  let transportation_cost := transportation.cost
  let accommodation_cost := accommodation.total_cost
  let raw_remaining := p.budget - transportation_cost - accommodation_cost
  let remaining_budget := if raw_remaining < 0 then p.budget * (2 / 10) else raw_remaining
  let daily_activity_budget ← pyDiv remaining_budget (p.duration : ℚ)
  let daily_plans ←
    (List.range p.duration).mapM
      (fun d =>
        recommend_daily_plan dm p destination_id (d + 1) daily_activity_budget (r.day (d + 1)))
  let activities_cost := (daily_plans.map (fun pl => pl.total_cost)).sum
  let food_budget := remaining_budget * (4 / 10)
  let misc_budget := remaining_budget * (1 / 10)
  let overview :=
    generate_overview_text p destination transportation accommodation daily_plans
      r.intro_idx r.highlight_rot
  Except.ok
    { destination := destination, transportation := transportation,
      accommodation := accommodation, daily_plan := daily_plans, overview := overview,
      budget_breakdown :=
        { transportation := transportation_cost, accommodation := accommodation_cost,
          activities := activities_cost, food := food_budget,
          miscellaneous := misc_budget } }

/-- Named quantity from the spec: `accommodation_budget = (budget/duration) × 0.35`. -/
def accommodation_budget_of (p : UserPreferences) : ℚ :=
  p.budget / (p.duration : ℚ) * (35 / 100)

/-- The budget-filtered accommodation set of `recommend_accommodation`. -/
def affordable_accommodations_of (dm : DataManager) (p : UserPreferences)
    (destination_id : Nat) : List Accommodation :=
  (accommodation_candidates dm p destination_id).filter
    (fun a => decide (a.cost_per_night ≤ accommodation_budget_of p))

/-! ### Concrete fixtures

The transportation table is the only catalog table whose contents are fixed
in `_create_transportation_data`; every other table is randomized at startup,
so the remaining fixtures are just well-formed sample rows. -/

/-- The five rows of `_create_transportation_data`. -/
def theTransportations : List Transportation :=
  [{ mode := "Plane", typical_cost_per_km := 15 / 100, speed_km_h := 900 },
   { mode := "Train", typical_cost_per_km := 10 / 100, speed_km_h := 200 },
   { mode := "Bus", typical_cost_per_km := 5 / 100, speed_km_h := 80 },
   { mode := "Car", typical_cost_per_km := 20 / 100, speed_km_h := 100 },
   { mode := "Ferry", typical_cost_per_km := 8 / 100, speed_km_h := 40 }]

def destP : Destination := { id := 1, name := "P", description := "art." }

def hotelP : Accommodation :=
  { destination_id := 1, name := "H", type := "Hotel", cost_per_night := 90,
    rating := 7 / 2, amenities := ["WiFi"] }

/-- Fixture catalog: one destination, one accommodation, no activities. -/
def dmP : DataManager :=
  { destinations := [destP], activities := [], transportations := theTransportations,
    accommodations := [hotelP] }

/-- An always-suitable, cheap, popular activity fixture. -/
def walkP : Activity :=
  { destination_id := 1, name := "Walk", category := "Sightseeing",
    description := "A walk.", cost := 10, morning_suitable := true,
    afternoon_suitable := true, evening_suitable := true, popularity := 9 / 10 }

/-- Fixture catalog with one activity. -/
def dmPA : DataManager := { dmP with activities := [walkP] }

def prefsP : UserPreferences :=
  { origin := "A", destination := "P", start_date := "D1", end_date := "D2",
    duration := 1, budget := 1000, activities := ["Sightseeing"],
    transportation := "Plane", accommodation := "Any" }

/-- Valid preferences for a 3-day trip (exercises a middle day). -/
def prefsP3 : UserPreferences := { prefsP with duration := 3 }

/-- Preferences with `duration = 0`. -/
def prefsP0 : UserPreferences := { prefsP with duration := 0 }

/-- Preferences naming a destination absent from the catalog. -/
def prefsAtlantis : UserPreferences := { prefsP with destination := "Atlantis" }

/-- Preferences requesting a transportation mode absent from the catalog. -/
def prefsBoat : UserPreferences := { prefsP with transportation := "Boat" }

def transRand0 : TransRand :=
  { sample_idx := 0, fixed_distance := 0, long_haul := false, free_distance := 0,
    mode_choice := 0 }

def dayRand0 : DayRand :=
  { morning_idx := 0, afternoon_idx := 0, evening_idx := 0, keyword_idx := 0 }

def genRand0 : GenRand :=
  { trans := transRand0, day := fun _ => dayRand0, intro_idx := 0, highlight_rot := 0 }

/-- The transportation choice produced for `prefsP` under `transRand0`. -/
def transportationP : TransportationChoice :=
  { mode := "Plane", distance_km := 500, cost := 75, travel_time_hours := 5 / 9,
    details := "From A to P via Plane" }

/-- The accommodation selected for `prefsP`: `hotelP` with `total_cost` attached. -/
def accommodationP : SelectedAccommodation :=
  { name := "H", type := "Hotel", cost_per_night := 90, total_cost := 90, rating := 7 / 2,
    amenities := ["WiFi"] }

/-- The single daily plan produced for `prefsP` (no catalog activities, so all
three slots are fillers; the remaining budget is 835). -/
def dayPlanP : DailyPlan :=
  { title := "Welcome to P",
    morning := { description := "Explore the area near your accommodation in P.", cost := 0 },
    afternoon := { description := "Enjoy local sights and culture in P.", cost := 501 / 4 },
    evening :=
      { description := "Dine at a local restaurant and experience P\x27s nightlife.",
        cost := 501 / 4 },
    total_cost := 501 / 2 }

/-- The daily plan produced for `prefsP` on day 1 with `daily_budget = 100`
(no catalog activities, so all three slots are fillers). -/
def dayPlanP100 : DailyPlan :=
  { title := "Welcome to P",
    morning := { description := "Explore the area near your accommodation in P.", cost := 0 },
    afternoon := { description := "Enjoy local sights and culture in P.", cost := 15 },
    evening :=
      { description := "Dine at a local restaurant and experience P\x27s nightlife.",
        cost := 15 },
    total_cost := 30 }

/-- The full itinerary produced for `prefsP` under `genRand0`. -/
def itineraryP : Itinerary :=
  { destination := destP, transportation := transportationP, accommodation := accommodationP,
    daily_plan := [dayPlanP],
    overview := generate_overview_text prefsP destP transportationP accommodationP [dayPlanP] 0 0,
    budget_breakdown :=
      { transportation := 75, accommodation := 90, activities := 501 / 2, food := 334,
        miscellaneous := 167 / 2 } }

/-! ### Inversion and sorting lemmas -/

theorem require_ok {α : Type} {o : Option α} {e : PyError} {a : α} :
    require o e = Except.ok a ↔ o = some a := by
  cases o <;> simp [require]

theorem except_bind_ok {ε α β : Type} {x : Except ε α} {f : α → Except ε β} {b : β} :
    (x >>= f) = Except.ok b ↔ ∃ a, x = Except.ok a ∧ f a = Except.ok b := by
  cases x <;> simp [Bind.bind, Except.bind]

theorem except_map_ok {ε α β : Type} {f : α → β} {x : Except ε α} {b : β} :
    Except.map f x = Except.ok b ↔ ∃ a, x = Except.ok a ∧ b = f a := by
  cases x <;> simp [Except.map, eq_comm]

theorem pyChoice_mem {α : Type} {l : List α} {x : Nat} {a : α} (h : pyChoice l x = some a) :
    a ∈ l :=
  List.getElem?_mem (by simpa [pyChoice] using h)

theorem pyChoice_isSome {α : Type} {l : List α} (hl : l ≠ []) (x : Nat) :
    ∃ a, pyChoice l x = some a := by
  have hx : x % l.length < l.length := Nat.mod_lt _ (List.length_pos.mpr hl)
  exact ⟨l[x % l.length], by simp [pyChoice, List.getElem?_eq_getElem hx]⟩

theorem exceptMapM_cons {ε α β : Type} {f : α → Except ε β} {a : α} {l : List α} {ys : List β}
    (h : (a :: l).mapM f = Except.ok ys) :
    ∃ y ys2, f a = Except.ok y ∧ l.mapM f = Except.ok ys2 ∧ ys = y :: ys2 := by
  rw [List.mapM_cons] at h
  cases hfa : f a with
  | error e => rw [hfa] at h; simp [Bind.bind, Except.bind] at h
  | ok y =>
      rw [hfa] at h
      cases hml : l.mapM f with
      | error e =>
          rw [hml] at h; simp [Bind.bind, Except.bind, pure, Except.pure] at h
      | ok ys2 =>
          rw [hml] at h
          simp only [Bind.bind, Except.bind, pure, Except.pure, Except.ok.injEq] at h
          exact ⟨y, ys2, rfl, rfl, h.symm⟩

theorem exceptMapM_length {ε α β : Type} {f : α → Except ε β} :
    ∀ {l : List α} {ys : List β}, l.mapM f = Except.ok ys → ys.length = l.length := by
  intro l
  induction l with
  | nil =>
      intro ys h
      rw [List.mapM_nil] at h
      simp only [pure, Except.pure, Except.ok.injEq] at h
      simp [← h]
  | cons a l ih =>
      intro ys h
      obtain ⟨y, ys2, _, hml, rfl⟩ := exceptMapM_cons h
      simp [ih hml]

theorem exceptMapM_get {ε α β : Type} {f : α → Except ε β} :
    ∀ {l : List α} {ys : List β}, l.mapM f = Except.ok ys →
      ∀ i (hi : i < l.length) (hi2 : i < ys.length),
        f (l.get ⟨i, hi⟩) = Except.ok (ys.get ⟨i, hi2⟩) := by
  intro l
  induction l with
  | nil => intro ys h i hi; exact absurd hi (Nat.not_lt_zero i)
  | cons a l ih =>
      intro ys h i hi hi2
      obtain ⟨y, ys2, hfa, hml, rfl⟩ := exceptMapM_cons h
      cases i with
      | zero => simpa using hfa
      | succ j =>
          have hj : j < l.length := Nat.lt_of_succ_lt_succ hi
          have hj2 : j < ys2.length := Nat.lt_of_succ_lt_succ hi2
          simpa using ih hml j hj hj2

theorem actLe_trans :
    ∀ a b c : Activity, actLe a b = true → actLe b c = true → actLe a c = true := by
  intro a b c hab hbc
  simp only [actLe, Bool.or_eq_true, Bool.and_eq_true, decide_eq_true_eq] at *
  rcases hab with h1 | ⟨h1, h2⟩ <;> rcases hbc with h3 | ⟨h3, h4⟩ <;>
    first
      | (left; linarith)
      | (right; exact ⟨by linarith, by linarith⟩)

theorem actLe_total : ∀ a b : Activity, (actLe a b || actLe b a) = true := by
  intro a b
  simp only [actLe, Bool.or_eq_true, Bool.and_eq_true, decide_eq_true_eq]
  rcases lt_trichotomy a.popularity b.popularity with h | h | h
  · exact Or.inr (Or.inl h)
  · rcases le_total a.cost b.cost with hc | hc
    · exact Or.inl (Or.inr ⟨h.symm, hc⟩)
    · exact Or.inr (Or.inr ⟨h, hc⟩)
  · exact Or.inl (Or.inl h)

theorem accLe_trans :
    ∀ a b c : Accommodation, accLe a b = true → accLe b c = true → accLe a c = true := by
  intro a b c hab hbc
  simp only [accLe, Bool.or_eq_true, Bool.and_eq_true, decide_eq_true_eq] at *
  rcases hab with h1 | ⟨h1, h2⟩ <;> rcases hbc with h3 | ⟨h3, h4⟩ <;>
    first
      | (left; linarith)
      | (right; exact ⟨by linarith, by linarith⟩)

theorem accLe_total : ∀ a b : Accommodation, (accLe a b || accLe b a) = true := by
  intro a b
  simp only [accLe, Bool.or_eq_true, Bool.and_eq_true, decide_eq_true_eq]
  rcases lt_trichotomy a.rating b.rating with h | h | h
  · exact Or.inr (Or.inl h)
  · rcases le_total a.cost_per_night b.cost_per_night with hc | hc
    · exact Or.inl (Or.inr ⟨h.symm, hc⟩)
    · exact Or.inr (Or.inr ⟨h, hc⟩)
  · exact Or.inl (Or.inl h)

theorem cheapLe_trans :
    ∀ a b c : Accommodation, cheapLe a b = true → cheapLe b c = true → cheapLe a c = true := by
  intro a b c hab hbc
  simp only [cheapLe, decide_eq_true_eq] at *
  linarith

theorem cheapLe_total : ∀ a b : Accommodation, (cheapLe a b || cheapLe b a) = true := by
  intro a b
  simp only [cheapLe, Bool.or_eq_true, decide_eq_true_eq]
  exact le_total _ _

theorem head?_mergeSort_mem {α : Type} {le : α → α → Bool} {l : List α} {x : α}
    (h : (l.mergeSort le).head? = some x) : x ∈ l := by
  have hm : x ∈ l.mergeSort le := by
    cases hms : l.mergeSort le with
    | nil => rw [hms] at h; cases h
    | cons y t =>
        rw [hms] at h
        simp only [List.head?_cons, Option.some.injEq] at h
        rw [← h]
        exact List.mem_cons_self y t
  exact List.mem_mergeSort.mp hm

theorem head?_mergeSort_le {α : Type} {le : α → α → Bool}
    (htrans : ∀ a b c : α, le a b = true → le b c = true → le a c = true)
    (htotal : ∀ a b : α, (le a b || le b a) = true)
    {l : List α} {x : α} (h : (l.mergeSort le).head? = some x) :
    ∀ a ∈ l, le x a = true := by
  intro a ha
  have hs := List.sorted_mergeSort htrans htotal l
  have ham : a ∈ l.mergeSort le := List.mem_mergeSort.mpr ha
  cases hms : l.mergeSort le with
  | nil => rw [hms] at h; cases h
  | cons y t =>
      rw [hms] at h ham hs
      simp only [List.head?_cons, Option.some.injEq] at h
      subst h
      rcases List.mem_cons.mp ham with rfl | hat
      · have := htotal a a
        simpa using this
      · exact (List.pairwise_cons.mp hs).1 a hat

theorem mergeSort_stable_filter {α : Type} {le : α → α → Bool}
    (htrans : ∀ a b c : α, le a b = true → le b c = true → le a c = true)
    (htotal : ∀ a b : α, (le a b || le b a) = true)
    {l : List α} {q : α → Bool}
    (hq : ∀ a b : α, q a = true → q b = true → le a b = true) :
    (l.mergeSort le).filter q = l.filter q := by
  have hpair : (l.filter q).Pairwise (fun a b => le a b = true) :=
    List.pairwise_of_forall_mem_list
      (fun a ha b hb => hq a b (List.of_mem_filter ha) (List.of_mem_filter hb))
  have hsub : (l.filter q).Sublist (l.mergeSort le) :=
    List.mergeSort_stable htrans htotal hpair (List.filter_sublist l)
  have hfilter_self : (l.filter q).filter q = l.filter q := by
    rw [List.filter_filter]
    congr 1
    funext a
    rw [Bool.and_self]
  have hsub2 : (l.filter q).Sublist ((l.mergeSort le).filter q) := by
    rw [← hfilter_self]
    exact hsub.filter q
  have hperm : ((l.mergeSort le).filter q).Perm (l.filter q) :=
    (List.mergeSort_perm l le).filter q
  exact (hsub2.eq_of_length (hperm.length_eq).symm).symm

theorem pyDiv_ok {a b q : ℚ} : pyDiv a b = Except.ok q ↔ b ≠ 0 ∧ q = a / b := by
  unfold pyDiv
  split
  · simp_all
  · simp_all [eq_comm]

theorem filtered_activities_sublist (dm : DataManager) (p : UserPreferences)
    (destination_id : Nat) (c : Constraints) :
    (filtered_activities dm p destination_id c).Sublist dm.activities := by
  simp only [filtered_activities, get_activities_by_destination]
  repeat' split
  all_goals
    repeat'
      first
        | exact List.Sublist.refl _
        | refine List.Sublist.trans (List.filter_sublist _) ?_

theorem filtered_activities_cost_le {dm : DataManager} {p : UserPreferences}
    {destination_id : Nat} {c : Constraints} {mc : ℚ} {a : Activity}
    (hmc : c.max_cost = some mc) (h : a ∈ filtered_activities dm p destination_id c) :
    a.cost ≤ mc := by
  simp only [filtered_activities, hmc] at h
  have := List.of_mem_filter h
  simpa using this

theorem recommend_activities_subset {dm : DataManager} {p : UserPreferences}
    {destination_id : Nat} {c : Constraints} {a : Activity}
    (h : a ∈ recommend_activities dm p destination_id c) :
    a ∈ filtered_activities dm p destination_id c := by
  simp only [recommend_activities] at h
  split at h
  · cases h
  · exact List.mem_mergeSort.mp (List.mem_of_mem_take h)

theorem recommend_activities_cost_le {dm : DataManager} {p : UserPreferences}
    {destination_id : Nat} {c : Constraints} {mc : ℚ} {a : Activity}
    (hmc : c.max_cost = some mc) (h : a ∈ recommend_activities dm p destination_id c) :
    a.cost ≤ mc :=
  filtered_activities_cost_le hmc (recommend_activities_subset h)

theorem pick_cost_le {dm : DataManager} {p : UserPreferences} {destination_id : Nat}
    {tod : String} {B : ℚ} {idx : Nat} {a : Activity}
    (h : pyChoice
        ((recommend_activities dm p destination_id (period_constraints tod B)).take
          (min 3 (recommend_activities dm p destination_id (period_constraints tod B)).length))
        idx = some a) :
    a.cost ≤ B :=
  recommend_activities_cost_le rfl (List.mem_of_mem_take (pyChoice_mem h))

theorem accommodation_candidates_ne_nil {dm : DataManager} {p : UserPreferences}
    {destination_id : Nat} (h : get_accommodations_by_destination dm destination_id ≠ []) :
    accommodation_candidates dm p destination_id ≠ [] := by
  simp only [accommodation_candidates]
  split
  · exact h
  · next hne => simp only [List.isEmpty_iff] at hne; exact hne


theorem generate_itinerary_ok_inv {dm : DataManager} {p : UserPreferences} {r : GenRand}
    {it : Itinerary} (h : generate_itinerary dm p r = Except.ok it) :
    ∃ dest budget_each,
      get_destination_by_name dm p.destination = some dest ∧
      (List.range p.duration).mapM
        (fun d => recommend_daily_plan dm p dest.id (d + 1) budget_each (r.day (d + 1))) =
        Except.ok it.daily_plan ∧
      it.budget_breakdown.activities = (it.daily_plan.map (fun pl => pl.total_cost)).sum := by
  unfold generate_itinerary at h
  simp only [except_bind_ok, require_ok, Except.ok.injEq] at h
  obtain ⟨dest, hdest, tr, htr, acc, hacc, db, hdb, plans, hplans, h⟩ := h
  subst h
  exact ⟨dest, db, hdest, hplans, rfl⟩

/-- Concrete successful run used by several witnesses. -/
theorem run_okP : generate_itinerary dmP prefsP genRand0 = Except.ok itineraryP := by
  norm_num [generate_itinerary, dmP, prefsP, genRand0, destP, hotelP, theTransportations,
    transRand0, dayRand0, get_destination_by_name, get_destination_by_id,
    recommend_transportation, get_transportation_by_mode, randint, pyDiv, require,
    recommend_accommodation, accommodation_candidates,
    get_accommodations_by_destination_and_type, get_accommodations_by_destination,
    recommend_daily_plan, pick_period, make_title, recommend_activities,
      get_activities_by_destination,
    filtered_activities, period_constraints, Accommodation.withTotal, pyChoice,
    Bind.bind, Except.bind, pure, Except.pure, Except.map, List.mergeSort_nil,
    List.mergeSort_singleton, List.mapM_cons, List.mapM_nil, List.mapM.loop,
    List.range_succ, List.range_zero, itineraryP, transportationP, accommodationP,
    dayPlanP, transport_details,
    show ¬("Plane" : String) = "Any" by decide,
    show "From " ++ "A" ++ " to " ++ "P" ++ " via " ++ "Plane" = "From A to P via Plane"
      by decide,
    show "Welcome to " ++ "P" = "Welcome to P" by decide,
    show "Explore the area near your accommodation in " ++ "P" ++ "." =
      "Explore the area near your accommodation in P." by decide,
    show "Enjoy local sights and culture in " ++ "P" ++ "." =
      "Enjoy local sights and culture in P." by decide,
    show "Dine at a local restaurant and experience " ++ "P" ++ "\x27s nightlife." =
      "Dine at a local restaurant and experience P\x27s nightlife." by decide]

/-! ### Claims -/

/-- C1: for every itinerary returned by `generate_itinerary`, the
`budget_breakdown.activities` field equals exactly the sum of `total_cost`
over all entries of the returned `daily_plan` sequence. -/
theorem itinerary_activities_eq_sum_daily_costs (dm : DataManager) (p : UserPreferences)
    (r : GenRand) (it : Itinerary) (h : generate_itinerary dm p r = Except.ok it) :
    it.budget_breakdown.activities = (it.daily_plan.map (fun pl => pl.total_cost)).sum := by
  obtain ⟨_, _, _, _, hsum⟩ := generate_itinerary_ok_inv h
  exact hsum

/-- Witness for C1: the property at the concrete successful run `run_okP`. -/
theorem itinerary_activities_eq_sum_daily_costs_witness :
    itineraryP.budget_breakdown.activities =
      (itineraryP.daily_plan.map (fun pl => pl.total_cost)).sum :=
  itinerary_activities_eq_sum_daily_costs dmP prefsP genRand0 itineraryP run_okP

/-- C2 counterexample: a preference record that is valid in the claim's sense
(duration 3 ≥ 1, budget 1000 > 0, non-empty interests, destination present in
the catalog) on which `generate_itinerary` fails — the middle day's title
generation reads the never-assigned `morning_activity` local (`NameError`) —
so no 3-entry itinerary is returned. -/
theorem generate_itinerary_valid_prefs_failure :
    1 ≤ prefsP3.duration ∧ 0 < prefsP3.budget ∧ prefsP3.activities ≠ [] ∧
    get_destination_by_name dmP prefsP3.destination = some destP ∧
    generate_itinerary dmP prefsP3 genRand0 = Except.error PyError.nameError := by
  refine ⟨by norm_num [prefsP3, prefsP], by norm_num [prefsP3, prefsP],
    by simp [prefsP3, prefsP], ?_, ?_⟩
  · norm_num [get_destination_by_name, dmP, prefsP3, prefsP, destP]
  · norm_num [generate_itinerary, dmP, prefsP3, prefsP, genRand0, destP, hotelP,
      theTransportations, transRand0, dayRand0, get_destination_by_name,
      get_destination_by_id, recommend_transportation, get_transportation_by_mode, randint,
      pyDiv, require, recommend_accommodation, accommodation_candidates,
      get_accommodations_by_destination_and_type, get_accommodations_by_destination,
      recommend_daily_plan, pick_period, make_title, recommend_activities,
      get_activities_by_destination,
      filtered_activities, period_constraints, Accommodation.withTotal, pyChoice,
      Bind.bind, Except.bind, pure, Except.pure, Except.map, List.mergeSort_nil,
      List.mergeSort_singleton, List.mapM_cons, List.mapM_nil, List.mapM.loop,
      List.range_succ, List.range_zero, transport_details,
      show ¬("Plane" : String) = "Any" by decide]

/-- C2 (amended): whenever `generate_itinerary` does return an itinerary, its
`daily_plan` has exactly `duration` entries, the i-th entry being the plan
produced by `recommend_daily_plan` for day i+1 (day order 1..duration); the
call can instead fail (e.g. the middle-day NameError, or an absent requested
transportation mode). -/
theorem daily_plan_has_duration_entries_in_order (dm : DataManager) (p : UserPreferences)
    (r : GenRand) (it : Itinerary) (h : generate_itinerary dm p r = Except.ok it) :
    it.daily_plan.length = p.duration ∧
    ∃ dest, get_destination_by_name dm p.destination = some dest ∧
      ∃ budget_each : ℚ, ∀ i (hi : i < it.daily_plan.length),
        recommend_daily_plan dm p dest.id (i + 1) budget_each (r.day (i + 1)) =
          Except.ok (it.daily_plan.get ⟨i, hi⟩) := by
  obtain ⟨dest, db, hdest, hplans, _⟩ := generate_itinerary_ok_inv h
  have hlen := exceptMapM_length hplans
  have hlen2 : it.daily_plan.length = p.duration := by simpa using hlen
  refine ⟨hlen2, dest, hdest, db, ?_⟩
  intro i hi
  have hi2 : i < (List.range p.duration).length := by
    simpa using lt_of_lt_of_eq hi hlen2
  have := exceptMapM_get hplans i hi2 hi
  simpa [List.get_range] using this

/-- Witness for C2 (amended): at the concrete successful run `run_okP`. -/
theorem daily_plan_has_duration_entries_in_order_witness :
    itineraryP.daily_plan.length = prefsP.duration ∧
    ∃ dest, get_destination_by_name dmP prefsP.destination = some dest ∧
      ∃ budget_each : ℚ, ∀ i (hi : i < itineraryP.daily_plan.length),
        recommend_daily_plan dmP prefsP dest.id (i + 1) budget_each (genRand0.day (i + 1)) =
          Except.ok (itineraryP.daily_plan.get ⟨i, hi⟩) :=
  daily_plan_has_duration_entries_in_order dmP prefsP genRand0 itineraryP run_okP

/-- C4: when the destination name is not present in the catalog,
`generate_itinerary` fails with the NotFound error (the `IndexError` of the
pandas `.iloc[0]` lookup, the spec's typed NotFound); it propagates to the
caller, no default destination is substituted and no itinerary is produced. -/
theorem generate_itinerary_unknown_destination (dm : DataManager) (p : UserPreferences)
    (r : GenRand) (h : p.destination ∉ dm.destinations.map Destination.name) :
    generate_itinerary dm p r = Except.error PyError.notFound := by
  have hfil : dm.destinations.filter (fun d => decide (d.name = p.destination)) = [] := by
    rw [List.filter_eq_nil_iff]
    intro d hd
    simp only [decide_eq_true_eq]
    intro hname
    exact h (hname ▸ List.mem_map_of_mem Destination.name hd)
  simp [generate_itinerary, get_destination_by_name, hfil, require, Bind.bind, Except.bind]

/-- Witness for C4: the "Atlantis" scenario on the fixture catalog. -/
theorem generate_itinerary_unknown_destination_witness :
    generate_itinerary dmP prefsAtlantis genRand0 = Except.error PyError.notFound :=
  generate_itinerary_unknown_destination dmP prefsAtlantis genRand0 (by decide)

/-- C5: on a day strictly between the first and the last (here day 2 of 3),
`recommend_daily_plan` does not return the filler plan when the period
queries are empty — the title generation reads the never-assigned
`morning_activity` local and raises `NameError`. -/
theorem recommend_daily_plan_middle_day_failure :
    recommend_daily_plan dmP prefsP3 1 2 100 dayRand0 = Except.error PyError.nameError := by
  norm_num [recommend_daily_plan, pick_period, make_title, recommend_activities,
      get_activities_by_destination,
    get_destination_by_id, filtered_activities, period_constraints, dmP, prefsP3, prefsP,
    destP, dayRand0, require, pyChoice, Bind.bind, Except.bind, pure, Except.pure,
    Except.map, List.mergeSort_nil]

/-- C6: with `duration = 0` the core does not reject the request as a typed
InvalidPreferences; the division `budget / duration` raises
`ZeroDivisionError` (first reached in `recommend_accommodation`), which
propagates out of `generate_itinerary`. -/
theorem generate_itinerary_zero_duration :
    generate_itinerary dmP prefsP0 genRand0 = Except.error PyError.divByZero := by
  norm_num [generate_itinerary, dmP, prefsP0, prefsP, genRand0, destP, hotelP,
    theTransportations, transRand0, get_destination_by_name, recommend_transportation,
    get_transportation_by_mode, randint, pyDiv, require, recommend_accommodation,
    accommodation_candidates, get_accommodations_by_destination_and_type,
    get_accommodations_by_destination, pyChoice, Bind.bind, Except.bind, pure,
    Except.pure, Except.map, List.mergeSort_nil, List.mergeSort_singleton,
    transport_details, show ¬("Plane" : String) = "Any" by decide]

/-- C7 counterexample: `recommend_transportation` is not total — a requested
mode absent from the transportation table ("Boat") raises the NotFound
failure (pandas `IndexError`) instead of falling back to a sampled mode. -/
theorem recommend_transportation_unknown_mode_failure :
    prefsBoat.transportation ∉ theTransportations.map Transportation.mode ∧
    recommend_transportation dmP prefsBoat transRand0 = Except.error PyError.notFound := by
  constructor
  · decide
  · norm_num [recommend_transportation, get_transportation_by_mode, dmP, prefsBoat, prefsP,
      theTransportations, transRand0, require, pyChoice, Bind.bind, Except.bind, pure,
      Except.pure, randint,
      show ¬("Boat" : String) = "Any" by decide,
      show ¬("Plane" : String) = "Boat" by decide,
      show ¬("Train" : String) = "Boat" by decide,
      show ¬("Bus" : String) = "Boat" by decide,
      show ¬("Car" : String) = "Boat" by decide,
      show ¬("Ferry" : String) = "Boat" by decide]

/-- C3: with at least one accommodation at the destination, the selection of
`recommend_accommodation` obeys the budget policy: if the budget-filtered set
is non-empty the selected entry comes from it (so its `cost_per_night` never
exceeds `accommodation_budget = (budget/duration) × 0.35`) and maximizes
rating with lower `cost_per_night` breaking rating ties; if the filtered set
is empty, the single cheapest candidate is returned regardless of budget. -/
theorem recommend_accommodation_budget_policy (dm : DataManager) (p : UserPreferences)
    (destination_id : Nat) (sel : SelectedAccommodation)
    (hne : get_accommodations_by_destination dm destination_id ≠ [])
    (hok : recommend_accommodation dm p destination_id = Except.ok sel) :
    (affordable_accommodations_of dm p destination_id ≠ [] →
      sel.cost_per_night ≤ accommodation_budget_of p ∧
      (∃ a ∈ affordable_accommodations_of dm p destination_id,
        sel = a.withTotal (a.cost_per_night * (p.duration : ℚ))) ∧
      ∀ a ∈ affordable_accommodations_of dm p destination_id,
        a.rating < sel.rating ∨
          (a.rating = sel.rating ∧ sel.cost_per_night ≤ a.cost_per_night)) ∧
    (affordable_accommodations_of dm p destination_id = [] →
      (∃ a ∈ accommodation_candidates dm p destination_id,
        sel = a.withTotal (a.cost_per_night * (p.duration : ℚ))) ∧
      ∀ a ∈ accommodation_candidates dm p destination_id,
        sel.cost_per_night ≤ a.cost_per_night) := by
  have hcand : accommodation_candidates dm p destination_id ≠ [] :=
    accommodation_candidates_ne_nil hne
  have hcandE : (accommodation_candidates dm p destination_id).isEmpty = false :=
    List.isEmpty_eq_false.mpr hcand
  simp only [recommend_accommodation, hcandE, Bool.false_eq_true, if_false,
    except_bind_ok, require_ok, pyDiv_ok, Except.ok.injEq] at hok
  obtain ⟨db, ⟨hdur, rfl⟩, selected, hsel, heq⟩ := hok
  simp only [affordable_accommodations_of, accommodation_budget_of]
  constructor
  · intro haff
    have haffE := List.isEmpty_eq_false.mpr haff
    simp only [affordable_accommodations_of, accommodation_budget_of] at haffE
    rw [haffE] at hsel
    simp only [Bool.false_eq_true, if_false] at hsel
    have hmem := head?_mergeSort_mem hsel
    have hle := head?_mergeSort_le accLe_trans accLe_total hsel
    refine ⟨?_, ⟨selected, hmem, heq.symm⟩, ?_⟩
    · have hflt := List.of_mem_filter hmem
      simp only [decide_eq_true_eq] at hflt
      rw [← heq]
      exact hflt
    · intro a ha
      have h1 := hle a ha
      simp only [accLe, Bool.or_eq_true, Bool.and_eq_true, decide_eq_true_eq] at h1
      rw [← heq]
      rcases h1 with h1 | ⟨h1, h2⟩
      · exact Or.inl h1
      · exact Or.inr ⟨h1, h2⟩
  · intro haff
    have haffE : (accommodation_candidates dm p destination_id).filter
        (fun a => decide (a.cost_per_night ≤ p.budget / (p.duration : ℚ) * (35 / 100))) = [] := by
      simpa [affordable_accommodations_of, accommodation_budget_of] using haff
    rw [haffE] at hsel
    simp only [List.isEmpty_nil, if_true] at hsel
    have hmem := head?_mergeSort_mem hsel
    have hle := head?_mergeSort_le cheapLe_trans cheapLe_total hsel
    refine ⟨⟨selected, hmem, heq.symm⟩, ?_⟩
    intro a ha
    have h1 := hle a ha
    simp only [cheapLe, decide_eq_true_eq] at h1
    rw [← heq]
    exact h1

/-- Witness for C3: the fixture destination has one accommodation, within
budget, and it is selected. -/
theorem recommend_accommodation_budget_policy_witness :
    (affordable_accommodations_of dmP prefsP 1 ≠ [] →
      accommodationP.cost_per_night ≤ accommodation_budget_of prefsP ∧
      (∃ a ∈ affordable_accommodations_of dmP prefsP 1,
        accommodationP = a.withTotal (a.cost_per_night * (prefsP.duration : ℚ))) ∧
      ∀ a ∈ affordable_accommodations_of dmP prefsP 1,
        a.rating < accommodationP.rating ∨
          (a.rating = accommodationP.rating ∧
            accommodationP.cost_per_night ≤ a.cost_per_night)) ∧
    (affordable_accommodations_of dmP prefsP 1 = [] →
      (∃ a ∈ accommodation_candidates dmP prefsP 1,
        accommodationP = a.withTotal (a.cost_per_night * (prefsP.duration : ℚ))) ∧
      ∀ a ∈ accommodation_candidates dmP prefsP 1,
        accommodationP.cost_per_night ≤ a.cost_per_night) :=
  recommend_accommodation_budget_policy dmP prefsP 1 accommodationP
    (by norm_num [get_accommodations_by_destination, dmP, hotelP])
    (by norm_num [recommend_accommodation, accommodation_candidates,
      get_accommodations_by_destination_and_type, get_accommodations_by_destination,
      dmP, prefsP, hotelP, accommodationP, pyDiv, require, Accommodation.withTotal,
      Bind.bind, Except.bind, pure, Except.pure, List.mergeSort_singleton])

/-- C9: `recommend_accommodation` attaches the derived `total_cost`
(`cost_per_night × duration`) only to the record it returns; the catalog
threaded through the call is returned unchanged (the Python assignment
mutates a fresh `to_dict(orient="records")` copy), and every non-generic
selection is a catalog entry copied and annotated via `withTotal`. -/
theorem recommend_accommodation_preserves_catalog (dm : DataManager) (p : UserPreferences)
    (destination_id : Nat) :
    (recommend_accommodation_state dm p destination_id).2 = dm ∧
    ∀ sel, recommend_accommodation dm p destination_id = Except.ok sel →
      sel.total_cost = sel.cost_per_night * (p.duration : ℚ) ∧
      (accommodation_candidates dm p destination_id ≠ [] →
        ∃ a ∈ accommodation_candidates dm p destination_id,
          sel = a.withTotal (a.cost_per_night * (p.duration : ℚ))) := by
  refine ⟨rfl, ?_⟩
  intro sel hok
  by_cases hcand : accommodation_candidates dm p destination_id = []
  · have hE : (accommodation_candidates dm p destination_id).isEmpty = true :=
      List.isEmpty_iff.mpr hcand
    simp only [recommend_accommodation, hE, if_true, Except.ok.injEq] at hok
    constructor
    · rw [← hok]
    · intro hcon
      exact absurd hcand hcon
  · have hcandE : (accommodation_candidates dm p destination_id).isEmpty = false :=
      List.isEmpty_eq_false.mpr hcand
    simp only [recommend_accommodation, hcandE, Bool.false_eq_true, if_false,
      except_bind_ok, require_ok, pyDiv_ok, Except.ok.injEq] at hok
    obtain ⟨db, ⟨hdur, rfl⟩, selected, hsel, heq⟩ := hok
    have hmem : selected ∈ accommodation_candidates dm p destination_id := by
      by_cases haff : ((accommodation_candidates dm p destination_id).filter
          (fun a => decide (a.cost_per_night ≤
            p.budget / (p.duration : ℚ) * (35 / 100)))).isEmpty = true
      · rw [haff] at hsel
        simp only [if_true] at hsel
        exact head?_mergeSort_mem hsel
      · rw [Bool.not_eq_true] at haff
        rw [haff] at hsel
        simp only [Bool.false_eq_true, if_false] at hsel
        exact List.mem_of_mem_filter (head?_mergeSort_mem hsel)
    refine ⟨?_, fun _ => ⟨selected, hmem, heq.symm⟩⟩
    rw [← heq]
    rfl

/-- Witness for C9 at the fixture catalog. -/
theorem recommend_accommodation_preserves_catalog_witness :
    (recommend_accommodation_state dmP prefsP 1).2 = dmP ∧
    (accommodationP.total_cost = accommodationP.cost_per_night * (prefsP.duration : ℚ) ∧
      (accommodation_candidates dmP prefsP 1 ≠ [] →
        ∃ a ∈ accommodation_candidates dmP prefsP 1,
          accommodationP = a.withTotal (a.cost_per_night * (prefsP.duration : ℚ)))) :=
  ⟨(recommend_accommodation_preserves_catalog dmP prefsP 1).1,
    (recommend_accommodation_preserves_catalog dmP prefsP 1).2 accommodationP
      (by norm_num [recommend_accommodation, accommodation_candidates,
        get_accommodations_by_destination_and_type, get_accommodations_by_destination,
        dmP, prefsP, hotelP, accommodationP, pyDiv, require, Accommodation.withTotal,
        Bind.bind, Except.bind, pure, Except.pure, List.mergeSort_singleton])⟩

/-- One period of `recommend_daily_plan`: a `some` pick comes from
`random.choice` over the (at most 3) top candidates. -/
theorem period_pick_some {L : List Activity} {idx : Nat} {a : Activity}
    (h : pick_period L idx = Except.ok (some a)) :
    pyChoice (L.take (min 3 L.length)) idx = some a := by
  unfold pick_period at h
  split at h
  · simp at h
  · simp only [except_map_ok, require_ok, Option.some.injEq] at h
    obtain ⟨b, hb, rfl⟩ := h
    exact hb

/-- C10: for every non-negative `daily_budget`, a plan returned by
`recommend_daily_plan` has `total_cost ≤ daily_budget`: each chosen
activity's cost is bounded by its period share (morning 30 percent,
afternoon 40, evening 30) via the `max_cost` filter, and each filler cost
(0, half the morning budget, half the evening budget) stays within its
period share as well. -/
theorem recommend_daily_plan_within_budget (dm : DataManager) (p : UserPreferences)
    (destination_id day_number : Nat) (daily_budget : ℚ) (r : DayRand) (plan : DailyPlan)
    (hb : 0 ≤ daily_budget)
    (hok : recommend_daily_plan dm p destination_id day_number daily_budget r =
      Except.ok plan) :
    plan.total_cost ≤ daily_budget := by
  unfold recommend_daily_plan at hok
  simp only [except_bind_ok, require_ok, Except.ok.injEq] at hok
  obtain ⟨dest, hdest, mpick, hmp, apick, hap, epick, hep, ttl, httl, heq⟩ := hok
  subst heq
  rcases mpick with _ | ma <;> rcases apick with _ | aa <;> rcases epick with _ | ea <;>
    dsimp only <;>
    [skip; skip; skip; skip; skip; skip; skip; skip] <;>
    first
      | (have hma := pick_cost_le (period_pick_some hmp)
         have haa := pick_cost_le (period_pick_some hap)
         have hea := pick_cost_le (period_pick_some hep)
         linarith)
      | (have hma := pick_cost_le (period_pick_some hmp)
         have haa := pick_cost_le (period_pick_some hap)
         linarith)
      | (have hma := pick_cost_le (period_pick_some hmp)
         have hea := pick_cost_le (period_pick_some hep)
         linarith)
      | (have haa := pick_cost_le (period_pick_some hap)
         have hea := pick_cost_le (period_pick_some hep)
         linarith)
      | (have hma := pick_cost_le (period_pick_some hmp)
         linarith)
      | (have haa := pick_cost_le (period_pick_some hap)
         linarith)
      | (have hea := pick_cost_le (period_pick_some hep)
         linarith)
      | linarith

/-- Witness for C10: the all-filler day-1 plan with budget 100 costs 30. -/
theorem recommend_daily_plan_within_budget_witness :
    dayPlanP100.total_cost ≤ 100 :=
  recommend_daily_plan_within_budget dmP prefsP 1 1 100 dayRand0 dayPlanP100 (by norm_num)
    (by norm_num [recommend_daily_plan, pick_period, make_title, recommend_activities,
      get_activities_by_destination,
      get_destination_by_id, filtered_activities, period_constraints, dmP, prefsP, destP,
      dayRand0, dayPlanP100, require, pyChoice, Bind.bind, Except.bind, pure, Except.pure,
      Except.map, List.mergeSort_nil,
      show "Welcome to " ++ "P" = "Welcome to P" by decide,
      show "Explore the area near your accommodation in " ++ "P" ++ "." =
        "Explore the area near your accommodation in P." by decide,
      show "Enjoy local sights and culture in " ++ "P" ++ "." =
        "Enjoy local sights and culture in P." by decide,
      show "Dine at a local restaurant and experience " ++ "P" ++ "\x27s nightlife." =
        "Dine at a local restaurant and experience P\x27s nightlife." by decide])

/-- C8: with `max_results = N`, `recommend_activities` returns at most N
entries, sorted by popularity descending with cost ascending as tiebreak;
entries tied on both keys are left in catalog order (they form a
subsequence of the catalog's activity table). -/
theorem recommend_activities_ranked (dm : DataManager) (p : UserPreferences)
    (destination_id : Nat) (c : Constraints) (N : Nat) (hN : c.max_results = some N) :
    (recommend_activities dm p destination_id c).length ≤ N ∧
    (recommend_activities dm p destination_id c).Pairwise
      (fun a b => b.popularity < a.popularity ∨
        (b.popularity = a.popularity ∧ a.cost ≤ b.cost)) ∧
    ∀ ρ χ : ℚ,
      ((recommend_activities dm p destination_id c).filter
          (fun a => decide (a.popularity = ρ) && decide (a.cost = χ))).Sublist
        (dm.activities.filter
          (fun a => decide (a.popularity = ρ) && decide (a.cost = χ))) := by
  have hsub : (recommend_activities dm p destination_id c).Sublist
      ((filtered_activities dm p destination_id c).mergeSort actLe) := by
    simp only [recommend_activities]
    split
    · exact List.nil_sublist _
    · exact List.take_sublist _ _
  refine ⟨?_, ?_, ?_⟩
  · simp only [recommend_activities]
    split
    · simp
    · rw [hN]
      simp only [Option.getD_some, List.length_take]
      exact min_le_left _ _
  · have hsorted := List.sorted_mergeSort actLe_trans actLe_total
      (filtered_activities dm p destination_id c)
    have hpw := List.Pairwise.sublist hsub hsorted
    refine hpw.imp ?_
    intro a b hab
    simpa [actLe, Bool.or_eq_true, Bool.and_eq_true, decide_eq_true_eq] using hab
  · intro rho chi
    have hq : ∀ a b : Activity,
        (decide (a.popularity = rho) && decide (a.cost = chi)) = true →
        (decide (b.popularity = rho) && decide (b.cost = chi)) = true →
        actLe a b = true := by
      intro a b ha hb
      simp only [Bool.and_eq_true, decide_eq_true_eq] at ha hb
      simp only [actLe, Bool.or_eq_true, Bool.and_eq_true, decide_eq_true_eq]
      right
      exact ⟨hb.1.trans ha.1.symm, le_of_eq (ha.2.trans hb.2.symm)⟩
    have hstab := mergeSort_stable_filter actLe_trans actLe_total
      (l := filtered_activities dm p destination_id c) hq
    have h1 := hsub.filter (fun a => decide (a.popularity = rho) && decide (a.cost = chi))
    rw [hstab] at h1
    exact h1.trans ((filtered_activities_sublist dm p destination_id c).filter _)

/-- Witness for C8: one-activity fixture, `max_results = 2`. -/
theorem recommend_activities_ranked_witness :
    (recommend_activities dmPA prefsP 1
      { time_of_day := some "morning", max_cost := some 100, max_results := some 2 }).length
        ≤ 2 ∧
    (recommend_activities dmPA prefsP 1
      { time_of_day := some "morning", max_cost := some 100, max_results := some 2 }).Pairwise
      (fun a b => b.popularity < a.popularity ∨
        (b.popularity = a.popularity ∧ a.cost ≤ b.cost)) ∧
    ∀ rho chi : ℚ,
      ((recommend_activities dmPA prefsP 1
          { time_of_day := some "morning", max_cost := some 100,
            max_results := some 2 }).filter
          (fun a => decide (a.popularity = rho) && decide (a.cost = chi))).Sublist
        (dmPA.activities.filter
          (fun a => decide (a.popularity = rho) && decide (a.cost = chi))) :=
  recommend_activities_ranked dmPA prefsP 1
    { time_of_day := some "morning", max_cost := some 100, max_results := some 2 } 2 rfl

/-- The distance-tier mode choice always succeeds and yields a standard mode. -/
theorem choose_mode_mem (D idx : Nat) :
    ∃ m, choose_mode_by_distance D idx = Except.ok m ∧
      m ∈ (["Plane", "Train", "Bus", "Car", "Ferry"] : List String) := by
  unfold choose_mode_by_distance
  split
  · exact ⟨"Plane", rfl, by decide⟩
  · split
    · obtain ⟨m, hm⟩ := pyChoice_isSome (l := ["Plane", "Train", "Car"]) (by decide) idx
      have hmm := pyChoice_mem hm
      refine ⟨m, by rw [hm]; rfl, ?_⟩
      fin_cases hmm <;> decide
    · obtain ⟨m, hm⟩ := pyChoice_isSome (l := ["Train", "Bus", "Car"]) (by decide) idx
      have hmm := pyChoice_mem hm
      refine ⟨m, by rw [hm]; rfl, ?_⟩
      fin_cases hmm <;> decide

/-- C7 (amended): when the requested transportation is "Any" or a mode present
in the transportation table, `recommend_transportation` never fails: it
returns a record carrying mode, `distance_km`, cost, `travel_time_hours` and
the descriptive `details` string. (A specifically requested absent mode is
instead the NotFound failure, see the counterexample.) -/
theorem recommend_transportation_total_on_catalog_modes (dm : DataManager)
    (p : UserPreferences) (r : TransRand) (hdm : dm.transportations = theTransportations)
    (hmode : p.transportation = "Any" ∨
      p.transportation ∈ (["Plane", "Train", "Bus", "Car", "Ferry"] : List String)) :
    ∃ out, recommend_transportation dm p r = Except.ok out ∧
      out.details = transport_details p out.mode := by
  obtain ⟨ds, acts, ts, accs⟩ := dm
  dsimp only at hdm
  subst hdm
  rcases hmode with hany | hmem
  · obtain ⟨m, hm, hmem5⟩ := choose_mode_mem
      (if r.long_haul then randint 1000 8000 r.free_distance
        else randint 50 800 r.free_distance) r.mode_choice
    fin_cases hmem5 <;>
      · simp [recommend_transportation, hany, hm, get_transportation_by_mode,
          theTransportations, require, pyDiv, pyChoice, Bind.bind, Except.bind,
          show ¬("Plane" : String) = "Any" by decide,
          show ¬("Train" : String) = "Any" by decide,
          show ¬("Bus" : String) = "Any" by decide,
          show ¬("Car" : String) = "Any" by decide,
          show ¬("Ferry" : String) = "Any" by decide,
          show ¬("Plane" : String) = "Train" by decide,
          show ¬("Plane" : String) = "Bus" by decide,
          show ¬("Train" : String) = "Bus" by decide,
          show ¬("Plane" : String) = "Car" by decide,
          show ¬("Train" : String) = "Car" by decide,
          show ¬("Bus" : String) = "Car" by decide,
          show ¬("Plane" : String) = "Ferry" by decide,
          show ¬("Train" : String) = "Ferry" by decide,
          show ¬("Bus" : String) = "Ferry" by decide,
          show ¬("Car" : String) = "Ferry" by decide,
          show ¬(900 : ℚ) = 0 by norm_num,
          show ¬(200 : ℚ) = 0 by norm_num,
          show ¬(80 : ℚ) = 0 by norm_num,
          show ¬(100 : ℚ) = 0 by norm_num,
          show ¬(40 : ℚ) = 0 by norm_num]
  · simp only [List.mem_cons, List.not_mem_nil, or_false] at hmem
    rcases hmem with h | h | h | h | h <;>
      · simp [recommend_transportation, h, get_transportation_by_mode,
          theTransportations, require, pyDiv, randint, Bind.bind, Except.bind,
          show ¬("Plane" : String) = "Any" by decide,
          show ¬("Train" : String) = "Any" by decide,
          show ¬("Bus" : String) = "Any" by decide,
          show ¬("Car" : String) = "Any" by decide,
          show ¬("Ferry" : String) = "Any" by decide,
          show ¬("Train" : String) = "Plane" by decide,
          show ¬("Bus" : String) = "Plane" by decide,
          show ¬("Car" : String) = "Plane" by decide,
          show ¬("Ferry" : String) = "Plane" by decide,
          show ¬("Plane" : String) = "Train" by decide,
          show ¬("Plane" : String) = "Bus" by decide,
          show ¬("Train" : String) = "Bus" by decide,
          show ¬("Plane" : String) = "Car" by decide,
          show ¬("Train" : String) = "Car" by decide,
          show ¬("Bus" : String) = "Car" by decide,
          show ¬("Plane" : String) = "Ferry" by decide,
          show ¬("Train" : String) = "Ferry" by decide,
          show ¬("Bus" : String) = "Ferry" by decide,
          show ¬("Car" : String) = "Ferry" by decide,
          show ((["Train", "Bus", "Car"] : List String).contains "Train") = true by decide,
          show ((["Train", "Bus", "Car"] : List String).contains "Bus") = true by decide,
          show ((["Train", "Bus", "Car"] : List String).contains "Car") = true by decide,
          show ((["Train", "Bus", "Car"] : List String).contains "Ferry") = false by decide,
          show ¬(900 : ℚ) = 0 by norm_num,
          show ¬(200 : ℚ) = 0 by norm_num,
          show ¬(80 : ℚ) = 0 by norm_num,
          show ¬(100 : ℚ) = 0 by norm_num,
          show ¬(40 : ℚ) = 0 by norm_num]

/-- Witness for C7 (amended): the "Plane" request on the standard table. -/
theorem recommend_transportation_total_on_catalog_modes_witness :
    ∃ out, recommend_transportation dmP prefsP transRand0 = Except.ok out ∧
      out.details = transport_details prefsP out.mode :=
  recommend_transportation_total_on_catalog_modes dmP prefsP transRand0 rfl
    (Or.inr (by decide))
